import Mathlib

/-!
Verification of the business-day/holiday calendar and the SMS notification
sweep of the Don Miguel vacation manager (backend/app.py), via a shallow
embedding in Lean.

Dates are modelled as day numbers of the proleptic Gregorian calendar
(days elapsed since 0000-03-01), which is the same absolute-day model that
underlies Python `datetime` arithmetic: `d2 - d1` is the difference of day
numbers and `d + timedelta(days=k)` is `d + k`.  The conversions
`rataDie` (from year/month/day) and `civilFromDays` (back to
year/month/day) are the standard Gregorian algorithms; the Python
method `date.weekday()` (Monday = 0 .. Sunday = 6) is recovered from the day
number by `pyWeekday`.  Python strings are modelled by `String`
(a wrapper around `List Char`).
-/

namespace DonMiguel

/-- Day number of the Gregorian date `(y, m, d)`: days elapsed since
0000-03-01.  Valid for years `y ≥ 1` (Python `datetime` likewise requires
`MINYEAR = 1`). -/
def rataDie (y m d : Nat) : Nat :=
  let yAdj := if m ≤ 2 then y - 1 else y
  let era := yAdj / 400
  let yoe := yAdj % 400
  let mp := (m + 9) % 12
  let doy := (153 * mp + 2) / 5 + (d - 1)
  era * 146097 + yoe * 365 + yoe / 4 - yoe / 100 + doy

/-- Inverse of `rataDie`: the `(year, month, day)` of a day number. -/
def civilFromDays (n : Nat) : Nat × Nat × Nat :=
  let era := n / 146097
  let doe := n % 146097
  let yoe := (doe - doe / 1460 + doe / 36524 - doe / 146096) / 365
  let y := yoe + era * 400
  let doy := doe - (365 * yoe + yoe / 4 - yoe / 100)
  let mp := (5 * doy + 2) / 153
  let d := doy - (153 * mp + 2) / 5 + 1
  let m := if mp < 10 then mp + 3 else mp - 9
  if m ≤ 2 then (y + 1, m, d) else (y, m, d)

/-- Python `date.weekday()` of a day number: Monday = 0, ..., Sunday = 6.
(0000-03-01 was a Wednesday, weekday 2.) -/
def pyWeekday (n : Nat) : Nat := (n + 2) % 7

/-- Python `date.year` of a day number. -/
def yearOf (n : Nat) : Nat := (civilFromDays n).1

/-- New Years Day: `datetime(year, 1, 1)`.  [app.py:101] -/
def new_years_day (year : Nat) : Nat := rataDie year 1 1

/-- MLK Day as computed by `get_us_holidays`: from Jan 1, the offset
`(7 - weekday) % 7` to the first Monday, replaced by `7` when it is `0`
(i.e. when Jan 1 is itself a Monday the code moves to Jan 8), then 14 more
days.  [app.py:103-110] -/
def mlk_day (year : Nat) : Nat :=
  let jan1 := rataDie year 1 1
  let days_to_monday := (7 - pyWeekday jan1) % 7
  let days_to_monday := if days_to_monday = 0 then 7 else days_to_monday
  jan1 + days_to_monday + 14

/-- Presidents Day as computed by `get_us_holidays`: same scheme as
`mlk_day`, from Feb 1.  [app.py:112-118] -/
def presidents_day (year : Nat) : Nat :=
  let feb1 := rataDie year 2 1
  let days_to_monday := (7 - pyWeekday feb1) % 7
  let days_to_monday := if days_to_monday = 0 then 7 else days_to_monday
  feb1 + days_to_monday + 14

/-- Memorial Day as computed by `get_us_holidays`: May 31 minus
`(weekday(May 31) + 1) % 7` days.  [app.py:120-124] -/
def memorial_day (year : Nat) : Nat :=
  let may31 := rataDie year 5 31
  let days_to_monday := (pyWeekday may31 + 1) % 7
  may31 - days_to_monday

/-- Independence Day: `datetime(year, 7, 4)`.  [app.py:127] -/
def independence_day (year : Nat) : Nat := rataDie year 7 4

/-- Labor Day as computed by `get_us_holidays`: from Sep 1, the offset
`(7 - weekday) % 7` replaced by `7` when `0`.  [app.py:129-135] -/
def labor_day (year : Nat) : Nat :=
  let sep1 := rataDie year 9 1
  let days_to_monday := (7 - pyWeekday sep1) % 7
  let days_to_monday := if days_to_monday = 0 then 7 else days_to_monday
  sep1 + days_to_monday

/-- Thanksgiving as computed by `get_us_holidays`: from Nov 1, the offset
`(3 - weekday) % 7` (Python floor-mod; for `weekday ∈ [0,6]` this equals
`(10 - weekday) % 7` in Nat), plus 21 days.  [app.py:137-141] -/
def thanksgiving_day (year : Nat) : Nat :=
  let nov1 := rataDie year 11 1
  let days_to_thursday := (10 - pyWeekday nov1) % 7
  nov1 + days_to_thursday + 21

/-- Day after Thanksgiving.  [app.py:143-145] -/
def day_after_thanksgiving (year : Nat) : Nat := thanksgiving_day year + 1

/-- Christmas Eve: `datetime(year, 12, 24)`.  [app.py:148] -/
def christmas_eve (year : Nat) : Nat := rataDie year 12 24

/-- Christmas Day: `datetime(year, 12, 25)`.  [app.py:151] -/
def christmas_day (year : Nat) : Nat := rataDie year 12 25

/-- The list built by `get_us_holidays(year)`, in append order.
[app.py:96-153] -/
def get_us_holidays (year : Nat) : List Nat :=
  [new_years_day year, mlk_day year, presidents_day year, memorial_day year,
   independence_day year, labor_day year, thanksgiving_day year,
   day_after_thanksgiving year, christmas_eve year, christmas_day year]

/-- Holiday test `is_holiday(date)`: membership of the date in the holiday list of the
date's own year (the source compares year, month and day of `datetime`
values at midnight, which on day numbers is plain equality).
[app.py:155-165] -/
def is_holiday (n : Nat) : Bool := (get_us_holidays (yearOf n)).contains n

/-- Business-day test `is_business_day(date)`: false on Saturday/Sunday (`weekday() >= 5`),
false on a holiday, true otherwise.  [app.py:167-175] -/
def is_business_day (n : Nat) : Bool :=
  if pyWeekday n ≥ 5 then false
  else if is_holiday n then false
  else true

/-- Counts business days among the `len` consecutive days starting at
`cur` (the body of the `while current_date <= end_date` loop of
`calculate_business_days`).  -/
def busDaysFrom (cur : Nat) : Nat → Nat
  | 0 => 0
  | len + 1 => (if is_business_day cur then 1 else 0) + busDaysFrom (cur + 1) len

/-- Function `calculate_business_days(start_date, end_date)`: inclusive count of
business days from `start_date` to `end_date`; the loop runs
`end_date + 1 - start_date` times (zero times when `end_date < start_date`).
[app.py:177-188] -/
def calculate_business_days (start_date end_date : Nat) : Nat :=
  busDaysFrom start_date (end_date + 1 - start_date)

/-- The `while not is_business_day(next_day)` loop of
`get_next_business_day_backend`, made total with an explicit step bound
`fuel` (the Python loop is unbounded; it terminates exactly when a business
day occurs within the bound). -/
def nextBusinessDayFuel : Nat → Nat → Option Nat
  | 0, _ => none
  | fuel + 1, cur => if is_business_day cur then some cur else nextBusinessDayFuel fuel (cur + 1)

/-- Function `get_next_business_day_backend(date)`: first business day strictly
after `date`, searching at most `fuel` days.  [app.py:190-197] -/
def get_next_business_day_backend (date : Nat) (fuel : Nat) : Option Nat :=
  nextBusinessDayFuel fuel (date + 1)

/-- Python `s.startswith(c)` for a one-character prefix `c`. -/
def pyStartsWith (s : String) (c : Char) : Bool :=
  match s.data with
  | [] => false
  | a :: _ => a == c

/-- Python one-character `str.replace` with empty replacement: removes
every occurrence of `c` from `s`. -/
def pyReplaceAll (s : String) (c : Char) : String :=
  String.mk (s.data.filter (fun a => a != c))

/-- The phone-formatting block inside `send_sms_notification`: leave a
`+`-prefixed number unchanged; else if it starts with `1` just prepend `+`;
else remove `-`, `(`, `)` and spaces and prepend `+1`.  [app.py:4199-4204] -/
def format_phone_number (phone_number : String) : String :=
  if pyStartsWith phone_number '+' then phone_number
  else if pyStartsWith phone_number '1' then "+" ++ phone_number
  else "+1" ++ pyReplaceAll (pyReplaceAll (pyReplaceAll (pyReplaceAll phone_number '-') '(') ')') ' '

/-- Two-digit zero padding, as in `strftime` fields `%m` and `%d`. -/
def padZero2 (n : Nat) : String := if n < 10 then "0" ++ toString n else toString n

/-- Four-digit zero padding, as in the `strftime` field `%Y`. -/
def padZero4 (n : Nat) : String :=
  if n < 10 then "000" ++ toString n
  else if n < 100 then "00" ++ toString n
  else if n < 1000 then "0" ++ toString n
  else toString n

/-- Python `date.strftime` with format `%m/%d/%Y` on a day number.  [app.py:4389-4390] -/
def strftime_mdY (n : Nat) : String :=
  let c := civilFromDays n
  padZero2 c.2.1 ++ "/" ++ padZero2 c.2.2 ++ "/" ++ padZero4 c.1

/-- Function `create_vacation_notification_message(vacation, days_until)`, with the
fields it reads passed explicitly (employee first/last name, start and end
day numbers, total hours) and `days_until` as the non-negative number of
calendar days until the start (the sweep only calls it after checking
`days_until_vacation >= 0`).  [app.py:4378-4399] -/
def create_vacation_notification_message (employee_first employee_last : String)
    (start_date end_date : Nat) (total_hours : Nat) (days_until : Nat) : String :=
  let employee_name := employee_first ++ " " ++ employee_last
  let start_date_str := strftime_mdY start_date
  let end_date_str := strftime_mdY end_date
  if days_until = 0 then
    "🏖️ VACATION ALERT: " ++ employee_name ++ " starts vacation TODAY (" ++ start_date_str
      ++ " to " ++ end_date_str ++ "). Total: " ++ toString total_hours
      ++ " hours. - Don Miguel Vacation Manager"
  else if days_until = 1 then
    "🏖️ VACATION REMINDER: " ++ employee_name ++ " starts vacation TOMORROW (" ++ start_date_str
      ++ " to " ++ end_date_str ++ "). Total: " ++ toString total_hours
      ++ " hours. - Don Miguel Vacation Manager"
  else
    "🏖️ VACATION REMINDER: " ++ employee_name ++ " starts vacation in " ++ toString days_until
      ++ " days (" ++ start_date_str ++ " to " ++ end_date_str ++ "). Total: "
      ++ toString total_hours ++ " hours. - Don Miguel Vacation Manager"

/-- One row of the `notification_history` table.  `sent_at` is the day
number of the attempt (`DATE(sent_at)`), or `none` for SQL NULL. -/
structure HistoryRow where
  supervisor_id : Nat
  vacation_request_id : Nat
  phone_number : String
  message_content : String
  twilio_sid : Option String
  twilio_status : Option String
  twilio_error_code : Option String
  twilio_error_message : Option String
  status : String
  sent_at : Option Nat
deriving Repr, DecidableEq

/-- Function `log_notification_history`: appends one row; `sent_at` is the
current time when `status` is `sent` or `failed`, NULL otherwise.
[app.py:4247-4272] -/
def log_notification_history (hist : List HistoryRow) (now : Nat)
    (supervisor_id vacation_request_id : Nat) (phone_number message_content : String)
    (twilio_sid twilio_status twilio_error_code twilio_error_message : Option String)
    (status : String) : List HistoryRow :=
  hist ++ [{ supervisor_id := supervisor_id, vacation_request_id := vacation_request_id,
             phone_number := phone_number, message_content := message_content,
             twilio_sid := twilio_sid, twilio_status := twilio_status,
             twilio_error_code := twilio_error_code, twilio_error_message := twilio_error_message,
             status := status,
             sent_at := if status = "sent" ∨ status = "failed" then some now else none }]

/-- Outcome of the external Twilio `messages.create` call: a message sid
and status on success, or the text of the raised exception. -/
inductive TwilioResult where
  | ok (sid status : String)
  | err (msg : String)

/-- Python truthiness of an optional integer id (`None` and `0` are falsy). -/
def pyTruthyId : Option Nat → Bool
  | none => false
  | some i => i != 0

/-- Python truthiness of an optional string (`None` and the empty string
are falsy). -/
def pyTruthyStr : Option String → Bool
  | none => false
  | some s => s != ""

/-- Python `a or b` on optional strings (used to pick the override phone
number, else the supervisor profile phone): yields `b` when `a` is `None`
or empty.  [app.py:4349] -/
def pyOrPhone : Option String → Option String → Option String
  | none, b => b
  | some s, b => if s == "" then b else some s

/-- Whether the Twilio client and sender phone number are configured
(checked first by `send_sms_notification`). -/
structure TwilioConfig where
  client_initialized : Bool
  phone_number_configured : Bool

/-- Function `send_sms_notification(phone_number, message_text,
supervisor_id, vacation_request_id)` as defined at [app.py:4188-4245], when invoked with
its declared parameters (as the test-SMS endpoint at app.py:4696 does):
returns `(success, sid-or-error)` and the possibly-extended history.  No
history row is written when the Twilio client or sender number is missing,
or when `supervisor_id` or `vacation_request_id` are absent; otherwise
exactly one `sent` or `failed` row is appended. -/
def send_sms_notification (cfg : TwilioConfig) (transport : String → String → TwilioResult)
    (now : Nat) (phone_number message_text : String)
    (supervisor_id vacation_request_id : Option Nat) (hist : List HistoryRow) :
    (Bool × String) × List HistoryRow :=
  if !cfg.client_initialized then ((false, "Twilio not configured"), hist)
  else if !cfg.phone_number_configured then ((false, "Twilio phone number not configured"), hist)
  else
    let phone := format_phone_number phone_number
    match transport phone message_text with
    | .ok sid status =>
      let hist :=
        if pyTruthyId supervisor_id && pyTruthyId vacation_request_id then
          log_notification_history hist now (supervisor_id.getD 0) (vacation_request_id.getD 0)
            phone message_text (some sid) (some status) none none "sent"
        else hist
      ((true, sid), hist)
    | .err e =>
      let hist :=
        if pyTruthyId supervisor_id && pyTruthyId vacation_request_id then
          log_notification_history hist now (supervisor_id.getD 0) (vacation_request_id.getD 0)
            phone message_text none none none (some e) "failed"
        else hist
      ((false, e), hist)

/-- One row of the joined candidate query of `check_upcoming_vacations`
(notification preference, supervisor, vacation request and employee fields
actually read by the sweep).  [app.py:4287-4316] -/
structure VacationRow where
  supervisor_id : Nat
  sms_enabled : Bool
  days_before_vacation : Nat
  notifications_per_day : Nat
  phone_number_override : Option String
  supervisor_phone : Option String
  supervisor_first_name : String
  supervisor_last_name : String
  vacation_request_id : Nat
  start_date : Nat
  end_date : Nat
  total_hours : Nat
  vr_status : String
  employee_first_name : String
  employee_last_name : String
deriving Repr, DecidableEq

/-- The WHERE clause of the candidate query: `sms_enabled`, vacation
status `Approved`, `start_date > CURRENT_DATE` and
`start_date <= CURRENT_DATE + INTERVAL 30 days`.  [app.py:4312-4319] -/
def upcoming_vacations_query (today : Nat) (table : List VacationRow) : List VacationRow :=
  table.filter (fun v =>
    v.sms_enabled && (v.vr_status == "Approved")
      && decide (today < v.start_date) && decide (v.start_date ≤ today + 30))

/-- Calendar days until the vacation start:
`days_until_vacation = (start_date - datetime.now().date()).days`.
[app.py:4331] -/
def days_until_vacation (today : Nat) (v : VacationRow) : Int :=
  (v.start_date : Int) - (today : Int)

/-- The SQL count of history rows with this supervisor, this vacation
request, `DATE(sent_at) = CURRENT_DATE` and `status = sent`
(rows with NULL `sent_at` have no date and never match).
[app.py:4337-4345] -/
def notifications_sent_today (hist : List HistoryRow)
    (supervisor_id vacation_request_id today : Nat) : Nat :=
  (hist.filter (fun r =>
    (r.supervisor_id == supervisor_id) && (r.vacation_request_id == vacation_request_id)
      && (r.sent_at == some today) && (r.status == "sent"))).length

/-- The body of the per-candidate loop of `check_upcoming_vacations`
[app.py:4324-4370], returning the history and the log lines it emits.
When the window check and the per-day cap pass and a phone number
resolves, the source computes the message and then calls
the function `send_sms_notification` passing the keyword arguments
`phone_number`, `message`, `supervisor_id` and `vacation_request_id`
[app.py:4354-4359] — but the second parameter of that function is named
`message_text`, not `message` [app.py:4188], so Python raises a TypeError
(unexpected keyword argument) before the function body runs; the
surrounding `except Exception` [app.py:4368-4370] logs the error and
continues.  The
raising call is therefore modelled as leaving the history unchanged and
emitting the error log line. -/
def process_vacation (today : Nat) (v : VacationRow) (hist : List HistoryRow) :
    List HistoryRow × List String :=
  let days_until := days_until_vacation today v
  if days_until ≤ (v.days_before_vacation : Int) ∧ 0 ≤ days_until then
    if notifications_sent_today hist v.supervisor_id v.vacation_request_id today
        < v.notifications_per_day then
      let phone_number := pyOrPhone v.phone_number_override v.supervisor_phone
      if pyTruthyStr phone_number then
        let _message := create_vacation_notification_message v.employee_first_name
          v.employee_last_name v.start_date v.end_date v.total_hours days_until.toNat
        (hist,
          ["Error processing vacation notification: send_sms_notification() got an unexpected keyword argument 'message'"])
      else
        (hist, ["No phone number available for supervisor "
                  ++ v.supervisor_first_name ++ " " ++ v.supervisor_last_name])
    else (hist, [])
  else (hist, [])

/-- The sweep `check_upcoming_vacations()`: runs the candidate query and processes
every candidate in order, threading the history through.
[app.py:4274-4376] -/
def check_upcoming_vacations (today : Nat) (table : List VacationRow)
    (hist : List HistoryRow) : List HistoryRow × List String :=
  (upcoming_vacations_query today table).foldl
    (fun acc v =>
      let r := process_vacation today v acc.1
      (r.1, acc.2 ++ r.2))
    (hist, [])

/-- Follows the words of the spec for Nth-weekday-of-month: the first
occurrence of the target weekday on or after the 1st of the month (the 1st
counts when it is itself the target weekday), plus `(n - 1)` weeks. -/
def nth_weekday_of_month_spec (year month target_weekday n : Nat) : Nat :=
  let first := rataDie year month 1
  first + (7 + target_weekday - pyWeekday first) % 7 + (n - 1) * 7

/-- The message prefix: `ALERT` only in the `days_until = 0` branch,
`REMINDER` in the other two.  [app.py:4392-4397] -/
def vacation_message_header (days_until : Nat) : String :=
  if days_until = 0 then "🏖️ VACATION ALERT: " else "🏖️ VACATION REMINDER: "

/-- The days-dependent phrase of the message, with its surrounding
delimiters.  [app.py:4392-4397] -/
def vacation_message_phrase (days_until : Nat) : String :=
  if days_until = 0 then " starts vacation TODAY ("
  else if days_until = 1 then " starts vacation TOMORROW ("
  else " starts vacation in " ++ toString days_until ++ " days ("

/-- The shared tail of the message: date range, total hours, signature.
[app.py:4392-4397] -/
def vacation_message_tail (start_date end_date total_hours : Nat) : String :=
  strftime_mdY start_date ++ " to " ++ strftime_mdY end_date ++ "). Total: "
    ++ toString total_hours ++ " hours. - Don Miguel Vacation Manager"

/-- A concrete candidate row that passes every gate of the sweep: enabled,
approved, starting 2024-07-01 (three days after the sweep date 2024-06-28,
within the 3-day lead window), cap 1 with empty history, and a supervisor
profile phone available. -/
def sweep_example_vacation : VacationRow :=
  { supervisor_id := 7, sms_enabled := true, days_before_vacation := 3,
    notifications_per_day := 1, phone_number_override := none,
    supervisor_phone := some "5551234567",
    supervisor_first_name := "Pat", supervisor_last_name := "Lee",
    vacation_request_id := 42, start_date := rataDie 2024 7 1,
    end_date := rataDie 2024 7 5, total_hours := 32, vr_status := "Approved",
    employee_first_name := "John", employee_last_name := "Doe" }

/-- A concrete candidate row for exercising the per-day cap: starts on day
5, viewed from day 3 with a 2-day lead window and cap 1. -/
def cap_example_vacation : VacationRow :=
  { supervisor_id := 7, sms_enabled := true, days_before_vacation := 2,
    notifications_per_day := 1, phone_number_override := none,
    supervisor_phone := some "5551234567",
    supervisor_first_name := "Pat", supervisor_last_name := "Lee",
    vacation_request_id := 42, start_date := 5,
    end_date := 9, total_hours := 32, vr_status := "Approved",
    employee_first_name := "John", employee_last_name := "Doe" }

/-- A history row already sent today (day 3) for the cap example. -/
def cap_example_sent_row : HistoryRow :=
  { supervisor_id := 7, vacation_request_id := 42, phone_number := "+15551234567",
    message_content := "m", twilio_sid := some "SM1", twilio_status := some "queued",
    twilio_error_code := none, twilio_error_message := none,
    status := "sent", sent_at := some 3 }

/-- A failed attempt today (day 3) for the cap example: such a row never
counts toward the per-day cap. -/
def cap_example_failed_row : HistoryRow :=
  { supervisor_id := 7, vacation_request_id := 42, phone_number := "+15551234567",
    message_content := "m", twilio_sid := none, twilio_status := none,
    twilio_error_code := none, twilio_error_message := some "boom",
    status := "failed", sent_at := some 3 }

/-- A concrete approved vacation starting 2024-07-01 used to witness the
candidate-window facts. -/
def window_example_vacation : VacationRow :=
  { supervisor_id := 9, sms_enabled := true, days_before_vacation := 5,
    notifications_per_day := 2, phone_number_override := some "+15550000000",
    supervisor_phone := none,
    supervisor_first_name := "Sam", supervisor_last_name := "Kim",
    vacation_request_id := 77, start_date := rataDie 2024 7 1,
    end_date := rataDie 2024 7 5, total_hours := 32, vr_status := "Approved",
    employee_first_name := "Ana", employee_last_name := "Ruiz" }

/-- Claim C1: for a sweep candidate that passes the window check, the
per-day cap and phone resolution, the code is claimed to always append
exactly one history row (sent or failed).  In the source the call into
`send_sms_notification` uses the keyword `message` while the parameter is
named `message_text`, so the call raises before any send or logging
happens, the per-candidate handler swallows the error, and the history is
left unchanged: here a candidate passes every gate yet the sweep appends
no history row at all, only the error log line. -/
theorem claim_C1 :
    (sweep_example_vacation ∈ upcoming_vacations_query (rataDie 2024 6 28) [sweep_example_vacation])
    ∧ days_until_vacation (rataDie 2024 6 28) sweep_example_vacation
        ≤ (sweep_example_vacation.days_before_vacation : Int)
    ∧ 0 ≤ days_until_vacation (rataDie 2024 6 28) sweep_example_vacation
    ∧ notifications_sent_today [] sweep_example_vacation.supervisor_id
        sweep_example_vacation.vacation_request_id (rataDie 2024 6 28)
        < sweep_example_vacation.notifications_per_day
    ∧ pyTruthyStr (pyOrPhone sweep_example_vacation.phone_number_override
        sweep_example_vacation.supervisor_phone) = true
    ∧ check_upcoming_vacations (rataDie 2024 6 28) [sweep_example_vacation] []
        = ([], ["Error processing vacation notification: send_sms_notification() got an unexpected keyword argument 'message'"]) := by
  refine ⟨by decide, by decide, by decide, by decide, by decide, by decide⟩

/-- Claim C2: the claim says the produced Memorial Day is the last Monday
of May (weekday Monday).  The source walks back from May 31 by
`(weekday + 1) % 7` days, which always lands on a Sunday: for every year
the produced date has weekday 6 (Sunday), and concretely for 2024 the code
produces 2024-05-26 while the last Monday of May 2024 is 2024-05-27
(weekday 0). -/
theorem claim_C2 :
    (∀ year : Nat, pyWeekday (memorial_day year) = 6)
    ∧ memorial_day 2024 = rataDie 2024 5 26
    ∧ pyWeekday (rataDie 2024 5 27) = 0 := by
  refine ⟨?_, by decide, by decide⟩
  intro y
  simp [memorial_day, rataDie, pyWeekday]
  omega

/-- Claim C3: the claim says the Nth-weekday holidays count the 1st of the
month as the first occurrence when the 1st is itself the target weekday.
The source instead replaces a zero offset by 7, skipping a week in exactly
that case: MLK Day 2024 (Jan 1 is a Monday) comes out as 2024-01-22 though
the third Monday is 2024-01-15; Labor Day 2025 (Sep 1 is a Monday) comes
out as 2025-09-08 though the first Monday is 2025-09-01; Presidents Day
2021 likewise.  (Thanksgiving, computed without the zero-offset
replacement, does agree with the spec rule in such a year: 2018.) -/
theorem claim_C3 :
    mlk_day 2024 = rataDie 2024 1 22
    ∧ nth_weekday_of_month_spec 2024 1 0 3 = rataDie 2024 1 15
    ∧ mlk_day 2024 ≠ nth_weekday_of_month_spec 2024 1 0 3
    ∧ labor_day 2025 = rataDie 2025 9 8
    ∧ nth_weekday_of_month_spec 2025 9 0 1 = rataDie 2025 9 1
    ∧ labor_day 2025 ≠ nth_weekday_of_month_spec 2025 9 0 1
    ∧ presidents_day 2021 = rataDie 2021 2 22
    ∧ nth_weekday_of_month_spec 2021 2 0 3 = rataDie 2021 2 15
    ∧ thanksgiving_day 2018 = nth_weekday_of_month_spec 2018 11 3 4 := by
  decide

/-- Claim C4 counterexample: `get_us_holidays` does not produce 9 dates —
for 2024 (as for every year) the list has 10 entries. -/
theorem claim_C4_counterexample : ¬ ((get_us_holidays 2024).length = 9) := by
  decide

/-- Claim C4 (amended): for every year of the Python `datetime` domain
(`year ≥ 1`), `get_us_holidays` produces exactly 10 dates, each falling
within the requested year (at or after Jan 1 of that year and before
Jan 1 of the next). -/
theorem claim_C4 (year : Nat) (hy : 1 ≤ year) :
    (get_us_holidays year).length = 10
    ∧ ∀ n ∈ get_us_holidays year, rataDie year 1 1 ≤ n ∧ n < rataDie (year + 1) 1 1 := by
  refine ⟨rfl, ?_⟩
  intro n hn
  simp only [get_us_holidays, List.mem_cons, List.not_mem_nil, or_false] at hn
  rcases hn with h|h|h|h|h|h|h|h|h|h <;> subst h <;>
    simp [new_years_day, mlk_day, presidents_day, memorial_day, independence_day,
      labor_day, thanksgiving_day, day_after_thanksgiving, christmas_eve, christmas_day,
      rataDie, pyWeekday] <;>
    (first | omega | (split <;> omega))

/-- Witness for claim C4 at the concrete year 2024. -/
theorem claim_C4_witness :
    (get_us_holidays 2024).length = 10
    ∧ rataDie 2024 1 1 ≤ memorial_day 2024 ∧ memorial_day 2024 < rataDie (2024 + 1) 1 1 :=
  ⟨(claim_C4 2024 (by decide)).1,
   ((claim_C4 2024 (by decide)).2 (memorial_day 2024) (by simp [get_us_holidays])).1,
   ((claim_C4 2024 (by decide)).2 (memorial_day 2024) (by simp [get_us_holidays])).2⟩

/-- Claim C5 counterexample: the days-until-1 message is not the TODAY
message with only the phrase swapped — the prefix also changes from
VACATION ALERT to VACATION REMINDER. -/
theorem claim_C5_counterexample :
    create_vacation_notification_message "John" "Doe" (rataDie 2024 7 1) (rataDie 2024 7 5) 32 1
      ≠ "🏖️ VACATION ALERT: John Doe starts vacation TOMORROW (07/01/2024 to 07/05/2024). Total: 32 hours. - Don Miguel Vacation Manager"
    ∧ create_vacation_notification_message "John" "Doe" (rataDie 2024 7 1) (rataDie 2024 7 5) 32 0
      = "🏖️ VACATION ALERT: John Doe starts vacation TODAY (07/01/2024 to 07/05/2024). Total: 32 hours. - Don Miguel Vacation Manager"
    ∧ create_vacation_notification_message "John" "Doe" (rataDie 2024 7 1) (rataDie 2024 7 5) 32 1
      = "🏖️ VACATION REMINDER: John Doe starts vacation TOMORROW (07/01/2024 to 07/05/2024). Total: 32 hours. - Don Miguel Vacation Manager" := by
  refine ⟨by decide, by decide, by decide⟩

/-- Claim C5 (amended): every reminder message decomposes into a header
(VACATION ALERT only for days-until 0, VACATION REMINDER otherwise), the
employee name, the days-dependent phrase (TODAY, TOMORROW, or in-N-days),
and a tail shared verbatim by all branches; so the days-until-1 message is
the days-until-0 message with ALERT replaced by REMINDER and TODAY by
TOMORROW, and likewise for N greater than 1. -/
theorem claim_C5 (employee_first employee_last : String)
    (start_date end_date total_hours days_until : Nat) :
    create_vacation_notification_message employee_first employee_last start_date end_date
        total_hours days_until
      = vacation_message_header days_until
          ++ (employee_first ++ " " ++ employee_last)
          ++ vacation_message_phrase days_until
          ++ vacation_message_tail start_date end_date total_hours := by
  unfold create_vacation_notification_message vacation_message_header vacation_message_phrase
    vacation_message_tail
  by_cases h0 : days_until = 0
  · subst h0
    simp [String.append_assoc]
  · by_cases h1 : days_until = 1
    · subst h1
      simp [String.append_assoc]
    · simp [h0, h1, String.append_assoc]

/-- Claim C6: inside the lead-time window, the sweep silently skips a
candidate exactly when the history already holds at least
`notifications_per_day` rows for this supervisor and vacation that are
marked sent with `sent_at` today; and a row that is not marked sent, or
whose `sent_at` is not today, never contributes to that count. -/
theorem claim_C6 (today : Nat) (v : VacationRow) (hist : List HistoryRow)
    (hwin : days_until_vacation today v ≤ (v.days_before_vacation : Int)
            ∧ 0 ≤ days_until_vacation today v) :
    (process_vacation today v hist = (hist, [])
      ↔ v.notifications_per_day
          ≤ notifications_sent_today hist v.supervisor_id v.vacation_request_id today)
    ∧ ∀ r : HistoryRow, (r.status ≠ "sent" ∨ r.sent_at ≠ some today) →
        notifications_sent_today (r :: hist) v.supervisor_id v.vacation_request_id today
          = notifications_sent_today hist v.supervisor_id v.vacation_request_id today := by
  constructor
  · simp only [process_vacation]
    rw [if_pos hwin]
    by_cases hc : notifications_sent_today hist v.supervisor_id v.vacation_request_id today
        < v.notifications_per_day
    · rw [if_pos hc]
      constructor
      · intro h
        exfalso
        by_cases hp : pyTruthyStr (pyOrPhone v.phone_number_override v.supervisor_phone) = true
        · rw [if_pos hp] at h
          simp at h
        · rw [if_neg hp] at h
          simp at h
      · intro hge
        exact absurd hc (by omega)
    · rw [if_neg hc]
      simp
      omega
  · intro r hr
    unfold notifications_sent_today
    rw [List.filter_cons]
    rcases hr with h | h
    · have hb : (r.status == "sent") = false := by simp [h]
      simp [hb]
    · have hb : (r.sent_at == some today) = false := by simp [h]
      simp [hb]

/-- Witness for claim C6: on day 3, a vacation starting day 5 with cap 1
is skipped once one sent row exists for today, and a failed row from today
does not change the count. -/
theorem claim_C6_witness :
    (process_vacation 3 cap_example_vacation [cap_example_sent_row]
        = ([cap_example_sent_row], [])
      ↔ cap_example_vacation.notifications_per_day
          ≤ notifications_sent_today [cap_example_sent_row] cap_example_vacation.supervisor_id
              cap_example_vacation.vacation_request_id 3)
    ∧ notifications_sent_today (cap_example_failed_row :: [cap_example_sent_row])
        cap_example_vacation.supervisor_id cap_example_vacation.vacation_request_id 3
      = notifications_sent_today [cap_example_sent_row]
          cap_example_vacation.supervisor_id cap_example_vacation.vacation_request_id 3 :=
  ⟨(claim_C6 3 cap_example_vacation [cap_example_sent_row] ⟨by decide, by decide⟩).1,
   (claim_C6 3 cap_example_vacation [cap_example_sent_row] ⟨by decide, by decide⟩).2
     cap_example_failed_row (Or.inl (by decide))⟩

/-- Claim C7: for start 2024-07-01 and end 2024-07-05 the creation-time
calculation counts 4 inclusive business days (2024-07-04 is a holiday and
not a business day), total hours 4 × 8 = 32, and the next business day
after the end date is 2024-07-08. -/
theorem claim_C7 :
    calculate_business_days (rataDie 2024 7 1) (rataDie 2024 7 5) = 4
    ∧ calculate_business_days (rataDie 2024 7 1) (rataDie 2024 7 5) * 8 = 32
    ∧ is_holiday (rataDie 2024 7 4) = true
    ∧ is_business_day (rataDie 2024 7 4) = false
    ∧ get_next_business_day_backend (rataDie 2024 7 5) 10 = some (rataDie 2024 7 8) := by
  refine ⟨by decide, by decide, by decide, by decide, by decide⟩

/-- The bounded next-business-day search succeeds whenever a business day
occurs within the bound, and its result is at or after the starting day
and is a business day. -/
theorem nextBusinessDayFuel_finds (fuel : Nat) :
    ∀ cur : Nat, (∃ k, k < fuel ∧ is_business_day (cur + k) = true) →
      ∃ r, nextBusinessDayFuel fuel cur = some r ∧ cur ≤ r ∧ is_business_day r = true := by
  induction fuel with
  | zero =>
    intro cur h
    obtain ⟨k, hk, -⟩ := h
    omega
  | succ f ih =>
    intro cur h
    obtain ⟨k, hk, hb⟩ := h
    by_cases hc : is_business_day cur
    · exact ⟨cur, by simp [nextBusinessDayFuel, hc], Nat.le_refl _, hc⟩
    · have hex : ∃ k, k < f ∧ is_business_day (cur + 1 + k) = true := by
        cases k with
        | zero =>
          simp only [Nat.add_zero] at hb
          exact absurd hb hc
        | succ k2 =>
          refine ⟨k2, by omega, ?_⟩
          have harr : cur + 1 + k2 = cur + (k2 + 1) := by omega
          rw [harr]
          exact hb
      obtain ⟨r, hr, hle, hbr⟩ := ih (cur + 1) hex
      refine ⟨r, by simp [nextBusinessDayFuel, hc, hr], by omega, hbr⟩

/-- Claim C8: whenever the interval of `fuel` days after `date` contains a
business day (the calendar-has-business-days assumption), the
next-business-day search terminates with a result that is strictly after
`date` and is a business day. -/
theorem claim_C8 (date fuel : Nat)
    (h : ∃ k, k < fuel ∧ is_business_day (date + 1 + k) = true) :
    ∃ r, get_next_business_day_backend date fuel = some r
      ∧ date < r ∧ is_business_day r = true := by
  obtain ⟨r, hr, hle, hbr⟩ := nextBusinessDayFuel_finds fuel (date + 1) h
  exact ⟨r, hr, by omega, hbr⟩

/-- Witness for claim C8 after 2024-07-05 with a 10-day bound. -/
theorem claim_C8_witness :
    ∃ r, get_next_business_day_backend (rataDie 2024 7 5) 10 = some r
      ∧ rataDie 2024 7 5 < r ∧ is_business_day r = true :=
  claim_C8 (rataDie 2024 7 5) 10 ⟨2, by decide, by decide⟩

/-- Claim C9: normalization leaves a `+`-prefixed number unchanged; a
number starting with `1` only gets `+` prepended (no stripping); any other
number has every `-`, `(`, `)` and space removed and `+1` prepended. -/
theorem claim_C9 (phone : String) :
    (pyStartsWith phone '+' = true → format_phone_number phone = phone)
    ∧ (pyStartsWith phone '+' = false → pyStartsWith phone '1' = true →
        format_phone_number phone = "+" ++ phone)
    ∧ (pyStartsWith phone '+' = false → pyStartsWith phone '1' = false →
        format_phone_number phone
          = "+1" ++ String.mk (phone.data.filter
              (fun c => !(c == '-' || c == '(' || c == ')' || c == ' ')))) := by
  refine ⟨?_, ?_, ?_⟩
  · intro h
    simp [format_phone_number, h]
  · intro h1 h2
    simp [format_phone_number, h1, h2]
  · intro h1 h2
    simp only [format_phone_number, h1, h2, Bool.false_eq_true, if_false]
    congr 1
    simp only [pyReplaceAll]
    rw [List.filter_filter, List.filter_filter, List.filter_filter]
    apply congrArg
    apply List.filter_congr
    intro a _
    cases hA : a == '-' <;> cases hB : a == '(' <;> cases hC : a == ')' <;> cases hD : a == ' ' <;>
      simp [hA, hB, hC, hD, bne]

/-- Witness for claim C9 on one phone number per branch. -/
theorem claim_C9_witness :
    format_phone_number "+15551234567" = "+15551234567"
    ∧ format_phone_number "15551234567" = "+" ++ "15551234567"
    ∧ format_phone_number "(555) 123-4567"
        = "+1" ++ String.mk (("(555) 123-4567" : String).data.filter
            (fun c => !(c == '-' || c == '(' || c == ')' || c == ' '))) :=
  ⟨(claim_C9 "+15551234567").1 (by decide),
   (claim_C9 "15551234567").2.1 (by decide) (by decide),
   (claim_C9 "(555) 123-4567").2.2 (by decide) (by decide)⟩

/-- Claim C10: every row returned by the candidate query starts strictly
after today, so its days-until is at least 1 (never 0, though the window
check would accept 0) and the message the sweep computes for it is a
VACATION REMINDER message, never the TODAY alert. -/
theorem claim_C10 (today : Nat) (table : List VacationRow) (v : VacationRow)
    (hv : v ∈ upcoming_vacations_query today table) :
    v.start_date ≠ today
    ∧ 1 ≤ days_until_vacation today v
    ∧ ∃ rest, create_vacation_notification_message v.employee_first_name v.employee_last_name
        v.start_date v.end_date v.total_hours (days_until_vacation today v).toNat
        = "🏖️ VACATION REMINDER: " ++ rest := by
  obtain ⟨-, hcond⟩ := List.mem_filter.mp hv
  simp only [Bool.and_eq_true, decide_eq_true_eq] at hcond
  obtain ⟨⟨⟨-, -⟩, hgt⟩, -⟩ := hcond
  have hn : 1 ≤ (days_until_vacation today v).toNat := by
    unfold days_until_vacation
    omega
  refine ⟨by omega, by unfold days_until_vacation; omega, ?_⟩
  unfold create_vacation_notification_message
  rw [if_neg (by omega)]
  by_cases h1 : (days_until_vacation today v).toNat = 1
  · rw [if_pos h1]
    simp only [String.append_assoc]
    exact ⟨_, rfl⟩
  · rw [if_neg h1]
    simp only [String.append_assoc]
    exact ⟨_, rfl⟩

/-- Witness for claim C10 on a concrete candidate three days ahead. -/
theorem claim_C10_witness :
    window_example_vacation.start_date ≠ rataDie 2024 6 28
    ∧ 1 ≤ days_until_vacation (rataDie 2024 6 28) window_example_vacation
    ∧ ∃ rest, create_vacation_notification_message window_example_vacation.employee_first_name
        window_example_vacation.employee_last_name window_example_vacation.start_date
        window_example_vacation.end_date window_example_vacation.total_hours
        (days_until_vacation (rataDie 2024 6 28) window_example_vacation).toNat
        = "🏖️ VACATION REMINDER: " ++ rest :=
  claim_C10 (rataDie 2024 6 28) [window_example_vacation] window_example_vacation (by decide)

end DonMiguel
